import Mathlib

/-!
Shallow embedding of the speech-to-text relay (src/server.js) and its
browser client (src/public/script.js).

Server side: the multer upload pipeline (disk storage, 10 MiB limit,
audio file filter), the `POST /api/transcribe` handler including the
normalization of the provider (Deepgram) response, and the trailing
error-handling middleware.  The external provider and the multer library
are modelled by their observable contracts: the provider call yields
either a result object, an error object, or throws; multer either writes
exactly one uniquely named temporary file (accepted upload) or leaves no
file behind (its documented behaviour on fileFilter rejection — the
filter runs before any bytes are written — and on LIMIT_FILE_SIZE, where
partially written files are removed).

Client side: the `SpeechToTextApp` state and its event handlers as pure
state-transition functions.
-/

/-! ## String primitives

JS `startsWith` / `endsWith` / `toLowerCase` / `split`, modelled on the
underlying character lists (structurally recursive, so that concrete
instances evaluate inside the kernel). -/

/-- JS `s.startsWith(pre)`. -/
def strStartsWith (s pre : String) : Bool :=
  pre.data.isPrefixOf s.data

/-- JS `s.endsWith(suf)`. -/
def strEndsWith (s suf : String) : Bool :=
  suf.data.isSuffixOf s.data

/-- JS `s.toLowerCase()` (ASCII letters). -/
def strToLower (s : String) : String :=
  ⟨s.data.map Char.toLower⟩

/-- `split` of a character list at spaces, as JS `s.split(' ')`. -/
def splitOnSpace : List Char → List (List Char)
  | [] => [[]]
  | c :: rest =>
    if c = ' ' then [] :: splitOnSpace rest
    else
      match splitOnSpace rest with
      | [] => [[c]]
      | w :: ws => (c :: w) :: ws

/-! ## Server: upload validation (src/server.js lines 44-65) -/

/-- A file as multer presents it to the fileFilter: declared MIME type,
original client-side filename, and size in bytes. -/
structure UploadFile where
  originalname : String
  mimetype : String
  size : Nat
deriving DecidableEq

/-- `allowedMimes` from the fileFilter: a mimetype is acceptable when it
starts with one of these prefixes. -/
def allowedMimes : List String := ["audio/", "video/webm"]

/-- `allowedExtensions` from the fileFilter. -/
def allowedExtensions : List String := [".wav", ".mp3", ".m4a", ".ogg", ".webm", ".flac"]

/-- `hasValidMime`: `allowedMimes.some(mime => file.mimetype.startsWith(mime))`. -/
def hasValidMime (f : UploadFile) : Bool :=
  allowedMimes.any (fun m => strStartsWith f.mimetype m)

/-- `hasValidExtension`:
`allowedExtensions.some(ext => file.originalname.toLowerCase().endsWith(ext))`. -/
def hasValidExtension (f : UploadFile) : Bool :=
  allowedExtensions.any (fun e => strEndsWith (strToLower f.originalname) e)

/-- The fileFilter accepts iff `hasValidMime || hasValidExtension`. -/
def fileFilterAccepts (f : UploadFile) : Bool :=
  hasValidMime f || hasValidExtension f

/-- `limits.fileSize`: 10 * 1024 * 1024 bytes. -/
def fileSizeLimit : Nat := 10 * 1024 * 1024

/-- Outcome of multer's `upload.single('audio')` middleware for one request. -/
inductive MulterOutcome where
  /-- file passed filter and size limit; written to a temp path -/
  | accepted (f : UploadFile)
  /-- fileFilter called back with `Error('Only audio files are allowed!')` -/
  | rejectedFilter
  /-- `MulterError` with code `LIMIT_FILE_SIZE` -/
  | rejectedSize
  /-- no `audio` field in the form: handler sees `req.file` undefined -/
  | noFile
deriving DecidableEq

/-- multer's `upload.single('audio')`: the fileFilter is consulted before
any bytes are written; an accepted file is then streamed to disk subject
to the size limit. -/
def multerSingle (upload : Option UploadFile) : MulterOutcome :=
  match upload with
  | none => .noFile
  | some f =>
    if fileFilterAccepts f then
      if f.size ≤ fileSizeLimit then .accepted f else .rejectedSize
    else .rejectedFilter

/-! ## Server: provider response shape and normalization (lines 112-128) -/

/-- One timed word from the provider.  The source field `end` is renamed
`wEnd` (`end` is a Lean keyword). -/
structure TimedWord where
  word : String
  start : ℚ
  wEnd : ℚ
deriving DecidableEq

/-- `results.channels[i].alternatives[j]` node; every field the handler
touches is optional. -/
structure DGAlternative where
  transcript : Option String
  confidence : Option ℚ
  words : Option (List TimedWord)
deriving DecidableEq

/-- `results.channels[i]` node. -/
structure DGChannel where
  alternatives : Option (List DGAlternative)
deriving DecidableEq

/-- `results` node. -/
structure DGResults where
  channels : Option (List DGChannel)
deriving DecidableEq

/-- `metadata` node. -/
structure DGMetadata where
  duration : Option ℚ
deriving DecidableEq

/-- The provider's `result` object, with every nested level optional. -/
structure DGResult where
  results : Option DGResults
  metadata : Option DGMetadata
deriving DecidableEq

/-- The optional chain `result.results?.channels?.[0]?.alternatives?.[0]`. -/
def alt0 (r : DGResult) : Option DGAlternative := do
  let rs ← r.results
  let chs ← rs.channels
  let ch ← chs.head?
  let alts ← ch.alternatives
  alts.head?

/-- `result.results?.channels?.[0]?.alternatives?.[0]?.transcript || ''`
(for strings, `|| ''` only replaces the empty string by itself, so it
coincides with defaulting the missing case). -/
def extractTranscript (r : DGResult) : String :=
  ((alt0 r).bind DGAlternative.transcript).getD ""

/-- `... ?.confidence || 0` (for numbers, `|| 0` only replaces 0 by 0). -/
def extractConfidence (r : DGResult) : ℚ :=
  ((alt0 r).bind DGAlternative.confidence).getD 0

/-- `... ?.words || []` (an empty JS array is truthy, so `|| []` fires
exactly when the chain is undefined). -/
def extractWords (r : DGResult) : List TimedWord :=
  ((alt0 r).bind DGAlternative.words).getD []

/-- `result.metadata?.duration || 0`. -/
def extractDuration (r : DGResult) : ℚ :=
  (r.metadata.bind DGMetadata.duration).getD 0

/-! ## Server: the request handler and error middleware (lines 82-204) -/

/-- The JSON body of the 200 response (lines 140-152).  `metadata` is
inlined as `model` / `language`; `processed_at` (a wall-clock timestamp)
is not modelled. -/
structure SuccessBody where
  success : Bool
  transcript : String
  confidence : ℚ
  word_count : Nat
  duration : ℚ
  words : List TimedWord
  model : String
  language : String
deriving DecidableEq

/-- A response body: either the success JSON or an `{error, message}` pair. -/
inductive ResponseBody where
  | success (b : SuccessBody)
  | failure (error : String) (message : String)
deriving DecidableEq

/-- An HTTP response: status code plus JSON body. -/
structure HttpResponse where
  status : Nat
  body : ResponseBody
deriving DecidableEq

/-- A client-error (4xx) status. -/
def isClientError (s : Nat) : Prop := 400 ≤ s ∧ s < 500

/-- What the provider call
`deepgram.listen.prerecorded.transcribeFile(...)` can do: return a
result, return an error object (optional `.message`), or throw
(covering any exception inside the try block; optional `.message`). -/
inductive ProviderOutcome where
  | ok (r : DGResult)
  | err (message : Option String)
  | throws (message : Option String)
deriving DecidableEq

/-- Observable outcome of one `POST /api/transcribe` request: the HTTP
response, the temporary files still on disk afterwards, and whether the
provider was invoked. -/
structure TranscribeResult where
  response : HttpResponse
  tempFiles : List String
  providerCalled : Bool
deriving DecidableEq

/-- Fixed Deepgram model option (line 100). -/
def optionsModel : String := "nova-2"

/-- Fixed Deepgram language option (line 101). -/
def optionsLanguage : String := "en-US"

/-- The whole `POST /api/transcribe` pipeline: multer middleware, the
handler (lines 82-169), and the error middleware (lines 189-204) for
errors multer forwards.  `tempPath` is the unique name multer picks for
an accepted upload; `provider` is what the provider call does on this
request. -/
def postApiTranscribe (upload : Option UploadFile) (tempPath : String)
    (provider : ProviderOutcome) : TranscribeResult :=
  match multerSingle upload with
  | .noFile =>
    -- handler line 84: `if (!req.file)` → 400
    { response := ⟨400, .failure "No audio file provided" "Please upload an audio file"⟩
      tempFiles := []
      providerCalled := false }
  | .rejectedFilter =>
    -- the fileFilter error is a plain Error, not a MulterError, so the
    -- error middleware falls through to its generic 500 branch
    { response := ⟨500, .failure "Internal server error" "Only audio files are allowed!"⟩
      tempFiles := []
      providerCalled := false }
  | .rejectedSize =>
    -- MulterError LIMIT_FILE_SIZE → 400 "File too large"
    { response := ⟨400, .failure "File too large" "Audio file must be smaller than 10MB"⟩
      tempFiles := []
      providerCalled := false }
  | .accepted _ =>
    -- file written to tempPath; handler body runs
    match provider with
    | .err msg =>
      -- lines 117-123: return 500 with the provider's message.  This
      -- early return happens BEFORE the fs.unlink at line 135, so the
      -- temporary file stays on disk.
      { response := ⟨500, .failure "Transcription failed" (msg.getD "Unknown error occurred")⟩
        tempFiles := [tempPath]
        providerCalled := true }
    | .ok r =>
      -- lines 126-152: normalize, unlink, respond 200
      { response := ⟨200, .success
          { success := true
            transcript := extractTranscript r
            confidence := extractConfidence r
            word_count := (extractWords r).length
            duration := extractDuration r
            words := (extractWords r).take 10
            model := optionsModel
            language := optionsLanguage }⟩
        tempFiles := []
        providerCalled := true }
    | .throws msg =>
      -- lines 154-168: catch block unlinks the file (it exists) and
      -- responds 500 with a generic error
      { response := ⟨500, .failure "Internal server error" (msg.getD "An unexpected error occurred")⟩
        tempFiles := []
        providerCalled := true }

/-- Project the success body out of a response, if it is one. -/
def successBody? (resp : HttpResponse) : Option SuccessBody :=
  match resp.body with
  | .success b => some b
  | .failure _ _ => none

/-- Number of whitespace-separated words in a text (used to state the
spec's `word_count` scenario). -/
def wordsInText (s : String) : Nat :=
  ((splitOnSpace s.data).filter (fun w => w ≠ [])).length

/-! ## Client: `SpeechToTextApp` state (src/public/script.js) -/

namespace Client

/-- A browser `File`: name and declared MIME type. -/
structure FileInfo where
  name : String
  type : String
deriving DecidableEq

/-- The observable state of the `SpeechToTextApp` instance and the DOM
pieces its handlers touch.  Recorders and audio chunks are abstracted to
numeric identifiers; `submissions` records every call to
`transcribeAudio`; `clipboard` and `downloads` record the side effects
of the copy and download actions; `statusMessages` is the list of
`(message, type)` pairs appended by `showStatus`. -/
structure ClientState where
  mediaRecorder : Option Nat
  audioChunks : List Nat
  isRecording : Bool
  visualizing : Bool
  recordBtnDisabled : Bool
  stopBtnDisabled : Bool
  dragover : Bool
  currentTranscription : Option SuccessBody
  renderedTranscript : String
  confidenceText : String
  wordCountText : String
  durationText : String
  modelText : String
  metaVisible : Bool
  copyDisabled : Bool
  downloadDisabled : Bool
  clearDisabled : Bool
  audioPreviewVisible : Bool
  processingVisible : Bool
  statusMessages : List (String × String)
  clipboard : Option String
  downloads : List String
  submissions : List FileInfo
deriving DecidableEq

/-- The placeholder markup `clearTranscription` restores (abstracted to
its visible text). -/
def placeholderText : String := "Your transcription will appear here..."

/-- State after the constructor ran and the initial page rendered:
nothing recorded, result panel on the placeholder, action buttons
disabled. -/
def initialState : ClientState where
  mediaRecorder := none
  audioChunks := []
  isRecording := false
  visualizing := false
  recordBtnDisabled := false
  stopBtnDisabled := true
  dragover := false
  currentTranscription := none
  renderedTranscript := placeholderText
  confidenceText := ""
  wordCountText := ""
  durationText := ""
  modelText := ""
  metaVisible := false
  copyDisabled := true
  downloadDisabled := true
  clearDisabled := true
  audioPreviewVisible := false
  processingVisible := false
  statusMessages := []
  clipboard := none
  downloads := []
  submissions := []

/-- `showStatus(message, type)`: appends one status message. -/
def showStatus (message type_ : String) (s : ClientState) : ClientState :=
  { s with statusMessages := s.statusMessages ++ [(message, type_)] }

/-- `updateRecordingUI(recording)`: toggles the two recording buttons
(the indicator text and bar classes are not modelled). -/
def updateRecordingUI (recording : Bool) (s : ClientState) : ClientState :=
  if recording then
    { s with recordBtnDisabled := true, stopBtnDisabled := false }
  else
    { s with recordBtnDisabled := false, stopBtnDisabled := true }

/-- `startRecording()` (lines 74-114).  `granted` is whether
`getUserMedia` resolves; `rec` identifies the freshly created
`MediaRecorder`; `errMsg` is the rejection's message.  On grant the
method unconditionally replaces the recorder, resets `audioChunks` to
`[]`, sets `isRecording`, starts visualization, and reports success —
there is no guard against already being in the recording state. -/
def startRecording (granted : Bool) (errMsg : String) (rec : Nat)
    (s : ClientState) : ClientState :=
  if granted then
    showStatus "Recording started" "success"
      { updateRecordingUI true
          { s with mediaRecorder := some rec
                   audioChunks := []
                   isRecording := true } with
        visualizing := true }
  else
    showStatus ("Failed to start recording: " ++ errMsg) "error" s

/-- The synchronous prefix of `transcribeAudio(audioData)` (lines
221-231): show the processing indicator and issue the POST.  The
submitted file is recorded in `submissions`. -/
def transcribeAudioStart (f : FileInfo) (s : ClientState) : ClientState :=
  { s with processingVisible := true, submissions := s.submissions ++ [f] }

/-- `handleFileSelect(event)` (lines 189-194): takes the first selected
file, if any, and submits it — with no check of its type. -/
def handleFileSelect (file : Option FileInfo) (s : ClientState) : ClientState :=
  match file with
  | some f => transcribeAudioStart f s
  | none => s

/-- `handleFileDrop(event)` (lines 206-219): clears the dragover
highlight; for a non-empty drop takes the first file, submits it when
its type starts with `audio/`, otherwise shows a non-fatal error
status. -/
def handleFileDrop (files : List FileInfo) (s : ClientState) : ClientState :=
  let s0 := { s with dragover := false }
  match files with
  | [] => s0
  | f :: _ =>
    if strStartsWith f.type "audio/" then transcribeAudioStart f s0
    else showStatus "Please upload an audio file" "error" s0

/-- `Math.round(confidence * 100) + '%'` as rendered at line 259. -/
def confidenceDisplay (c : ℚ) : String :=
  toString (round (c * 100)) ++ "%"

/-- `duration.toFixed(1) + 's'` without the trailing `s` (line 261);
durations are non-negative. -/
def toFixed1 (q : ℚ) : String :=
  let n : ℤ := round (q * 10)
  toString (n / 10) ++ "." ++ toString (n.natAbs % 10)

/-- `displayTranscription(result)` (lines 250-274): renders the
transcript (or the no-speech placeholder when it is empty), fills the
metadata fields, shows the metadata section, enables the three action
buttons, and stores the whole result object. -/
def displayTranscription (b : SuccessBody) (s : ClientState) : ClientState :=
  { s with
    renderedTranscript := if b.transcript = "" then "No speech detected in the audio." else b.transcript
    confidenceText := confidenceDisplay b.confidence
    wordCountText := toString b.word_count
    durationText := toFixed1 b.duration ++ "s"
    modelText := b.model
    metaVisible := true
    copyDisabled := false
    downloadDisabled := false
    clearDisabled := false
    currentTranscription := some b }

/-- The continuation of `transcribeAudio` once the response arrived
(lines 233-247): on `success` display the result and report success; on
anything else the thrown `Error(result.message || 'Transcription
failed')` is caught and surfaced as an error status.  The `finally`
hides the processing indicator in both cases. -/
def transcribeAudioDone (resp : ResponseBody) (s : ClientState) : ClientState :=
  match resp with
  | .success b =>
    { showStatus "Transcription completed successfully!" "success"
        (displayTranscription b s) with processingVisible := false }
  | .failure _ message =>
    { showStatus
        ("Transcription failed: " ++ (if message = "" then "Transcription failed" else message))
        "error" s with processingVisible := false }

/-- `copyTranscription()` (lines 276-284): only acts when a result is
stored AND its transcript is truthy (non-empty); `ok` is whether the
clipboard write resolves. -/
def copyTranscription (ok : Bool) (s : ClientState) : ClientState :=
  match s.currentTranscription with
  | none => s
  | some t =>
    if t.transcript = "" then s
    else if ok then
      showStatus "Transcription copied to clipboard!" "success"
        { s with clipboard := some t.transcript }
    else
      showStatus "Failed to copy transcription" "error" s

/-- The text file `downloadTranscription` serializes (lines 288-296);
`now` stands in for the wall-clock timestamp. -/
def downloadContent (t : SuccessBody) (now : Nat) : String :=
  "Speech to Text Transcription\nGenerated: " ++ toString now ++
  "\nModel: " ++ t.model ++
  "\nConfidence: " ++ confidenceDisplay t.confidence ++
  "\nDuration: " ++ toFixed1 t.duration ++ "s" ++
  "\nWord Count: " ++ toString t.word_count ++
  "\n\nTranscript:\n" ++ t.transcript

/-- `downloadTranscription()` (lines 286-310): when a result is stored
(any object, even with an empty transcript, is truthy) it triggers a
download of the serialized content and reports success. -/
def downloadTranscription (now : Nat) (s : ClientState) : ClientState :=
  match s.currentTranscription with
  | none => s
  | some t =>
    showStatus "Transcription downloaded!" "success"
      { s with downloads := s.downloads ++ [downloadContent t now] }

/-- `clearTranscription()` (lines 312-331): placeholder back, metadata
hidden, action buttons disabled, stored result dropped, preview hidden,
and a success status. -/
def clearTranscription (s : ClientState) : ClientState :=
  showStatus "Transcription cleared" "success"
    { s with
      renderedTranscript := placeholderText
      metaVisible := false
      copyDisabled := true
      downloadDisabled := true
      clearDisabled := true
      currentTranscription := none
      audioPreviewVisible := false }

end Client

/-! ## Concrete fixtures -/

/-- A small accepted WAV upload. -/
def wavFile : UploadFile := { originalname := "clip.wav", mimetype := "audio/wav", size := 4 }

/-- A text file: wrong MIME type and wrong extension. -/
def txtFile : UploadFile := { originalname := "notes.txt", mimetype := "text/plain", size := 5 }

/-- A provider result with every optional level absent. -/
def emptyResult : DGResult := { results := none, metadata := none }

/-- A provider result carrying a two-word transcript but no `words` list. -/
def twoWordResult : DGResult :=
  { results := some
      { channels := some
          [{ alternatives := some
              [{ transcript := some "hello world", confidence := some 1, words := none }] }] }
    metadata := none }

/-- The success body the handler produces for `emptyResult`. -/
def sampleSuccessBody : SuccessBody :=
  { success := true, transcript := "", confidence := 0, word_count := 0
    duration := 0, words := [], model := "nova-2", language := "en-US" }

/-! ## Claims about the relay -/

/-- Claim C1: the spec says the temporary file of an accepted upload is
deleted whether the provider call succeeds or reports an error.  The
code violates this: when the provider returns an error object, the
handler's early `return res.status(500)` runs before the `fs.unlink`,
so the temporary file stays on disk.  This theorem evaluates the
pipeline at such a failing input: an accepted WAV upload whose provider
call reports an error ends with the temp file still present. -/
theorem C1_temp_file_persists_on_provider_error :
    multerSingle (some wavFile) = MulterOutcome.accepted wavFile ∧
    (postApiTranscribe (some wavFile) "uploads/audio-1.wav"
        (ProviderOutcome.err (some "Invalid API key"))).response.status = 500 ∧
    (postApiTranscribe (some wavFile) "uploads/audio-1.wav"
        (ProviderOutcome.err (some "Invalid API key"))).tempFiles = ["uploads/audio-1.wav"] := by
  exact ⟨by decide, by decide, by decide⟩

/-- Claim C2: an upload rejected by the type filter or the size limit
leaves no temporary file behind and never reaches the provider. -/
theorem C2_rejected_upload_no_temp_no_provider (u : Option UploadFile) (p : String)
    (prov : ProviderOutcome)
    (h : multerSingle u = MulterOutcome.rejectedFilter ∨
         multerSingle u = MulterOutcome.rejectedSize) :
    (postApiTranscribe u p prov).tempFiles = [] ∧
    (postApiTranscribe u p prov).providerCalled = false := by
  unfold postApiTranscribe
  rcases h with h | h <;> rw [h] <;> exact ⟨rfl, rfl⟩

/-- Witness for C2 at a concrete rejected upload (a .txt file). -/
theorem C2_witness :
    (multerSingle (some txtFile) = MulterOutcome.rejectedFilter ∨
     multerSingle (some txtFile) = MulterOutcome.rejectedSize) ∧
    (postApiTranscribe (some txtFile) "uploads/audio-2.txt" (ProviderOutcome.err none)).tempFiles = [] ∧
    (postApiTranscribe (some txtFile) "uploads/audio-2.txt" (ProviderOutcome.err none)).providerCalled = false :=
  ⟨Or.inl (by decide),
   C2_rejected_upload_no_temp_no_provider (some txtFile) "uploads/audio-2.txt"
     (ProviderOutcome.err none) (Or.inl (by decide))⟩

/-- Claim C3: when the nested transcript / confidence / words fields are
absent from the provider result, the response is still a 200 success and
the missing fields default to `""`, `0`, `[]` respectively. -/
theorem C3_missing_fields_default_to_empty (f : UploadFile) (p : String) (r : DGResult)
    (hacc : multerSingle (some f) = MulterOutcome.accepted f) :
    (postApiTranscribe (some f) p (ProviderOutcome.ok r)).response.status = 200 ∧
    ((alt0 r).bind DGAlternative.transcript = none →
      (successBody? (postApiTranscribe (some f) p (ProviderOutcome.ok r)).response).map
        SuccessBody.transcript = some "") ∧
    ((alt0 r).bind DGAlternative.confidence = none →
      (successBody? (postApiTranscribe (some f) p (ProviderOutcome.ok r)).response).map
        SuccessBody.confidence = some 0) ∧
    ((alt0 r).bind DGAlternative.words = none →
      (successBody? (postApiTranscribe (some f) p (ProviderOutcome.ok r)).response).map
        SuccessBody.words = some []) := by
  unfold postApiTranscribe
  rw [hacc]
  refine ⟨rfl, ?_, ?_, ?_⟩ <;> intro h
  · simp [successBody?, extractTranscript, h]
  · simp [successBody?, extractConfidence, h]
  · simp [successBody?, extractWords, h]

/-- Witness for C3: accepted WAV upload with a fully empty provider result. -/
theorem C3_witness :
    multerSingle (some wavFile) = MulterOutcome.accepted wavFile ∧
    ((postApiTranscribe (some wavFile) "uploads/audio-3.wav" (ProviderOutcome.ok emptyResult)).response.status = 200 ∧
     ((alt0 emptyResult).bind DGAlternative.transcript = none →
       (successBody? (postApiTranscribe (some wavFile) "uploads/audio-3.wav" (ProviderOutcome.ok emptyResult)).response).map
         SuccessBody.transcript = some "") ∧
     ((alt0 emptyResult).bind DGAlternative.confidence = none →
       (successBody? (postApiTranscribe (some wavFile) "uploads/audio-3.wav" (ProviderOutcome.ok emptyResult)).response).map
         SuccessBody.confidence = some 0) ∧
     ((alt0 emptyResult).bind DGAlternative.words = none →
       (successBody? (postApiTranscribe (some wavFile) "uploads/audio-3.wav" (ProviderOutcome.ok emptyResult)).response).map
         SuccessBody.words = some [])) :=
  ⟨by decide,
   C3_missing_fields_default_to_empty wavFile "uploads/audio-3.wav" emptyResult (by decide)⟩

/-- Claim C4: every successful transcription response carries at most 10
entries in its `words` array, however many words the provider returned. -/
theorem C4_words_at_most_ten (u : Option UploadFile) (p : String) (prov : ProviderOutcome)
    (b : SuccessBody)
    (hb : (postApiTranscribe u p prov).response.body = ResponseBody.success b) :
    b.words.length ≤ 10 := by
  unfold postApiTranscribe at hb
  split at hb
  · simp at hb
  · simp at hb
  · simp at hb
  · split at hb
    · simp at hb
    · simp only [ResponseBody.success.injEq] at hb
      subst hb
      rw [List.length_take]
      exact min_le_left _ _
    · simp at hb
  

/-- Witness for C4: the empty provider result yields a success body with
zero (≤ 10) words. -/
theorem C4_witness :
    (postApiTranscribe (some wavFile) "uploads/audio-4.wav" (ProviderOutcome.ok emptyResult)).response.body =
      ResponseBody.success sampleSuccessBody ∧
    sampleSuccessBody.words.length ≤ 10 :=
  ⟨by decide,
   C4_words_at_most_ten (some wavFile) "uploads/audio-4.wav" (ProviderOutcome.ok emptyResult)
     sampleSuccessBody (by decide)⟩

/-- Claim C5 counterexample: the claim says every file outside the
allowed audio set is rejected with a client-error response.  A rejected
`.txt` upload in fact gets status 500: the fileFilter's plain `Error`
is not a `MulterError`, so the error middleware answers with its
generic server-error branch. -/
theorem C5_counterexample_txt_rejection_is_500 :
    fileFilterAccepts txtFile = false ∧
    (postApiTranscribe (some txtFile) "uploads/audio-5.txt" (ProviderOutcome.err none)).response.status = 500 ∧
    ¬ isClientError (postApiTranscribe (some txtFile) "uploads/audio-5.txt" (ProviderOutcome.err none)).response.status := by
  refine ⟨by decide, by decide, fun h => absurd h.2 (by decide)⟩

/-- Claim C5 as amended: the relay accepts an uploaded file iff its
declared MIME type starts with `audio/` (generic audio) or with
`video/webm`, or its lowercased filename ends in one of
.wav/.mp3/.m4a/.ogg/.webm/.flac; a file outside this set is rejected
with a 500 server-error response carrying the filter's message
`Only audio files are allowed!`, never reaching the provider and
leaving no temporary file. -/
theorem C5_accept_set_and_500_rejection (f : UploadFile) (p : String)
    (prov : ProviderOutcome) :
    (fileFilterAccepts f = true ↔
      (strStartsWith f.mimetype "audio/" = true ∨
       strStartsWith f.mimetype "video/webm" = true ∨
       hasValidExtension f = true)) ∧
    (fileFilterAccepts f = false →
      (postApiTranscribe (some f) p prov).response =
        ⟨500, ResponseBody.failure "Internal server error" "Only audio files are allowed!"⟩ ∧
      (postApiTranscribe (some f) p prov).tempFiles = [] ∧
      (postApiTranscribe (some f) p prov).providerCalled = false) := by
  constructor
  · simp only [fileFilterAccepts, hasValidMime, allowedMimes, List.any_cons, List.any_nil,
      Bool.or_false, Bool.or_eq_true]
    tauto
  · intro h
    unfold postApiTranscribe multerSingle
    simp [h]

/-- Witness for C5 (amended) at the concrete `.txt` upload. -/
theorem C5_witness :
    fileFilterAccepts txtFile = false ∧
    (postApiTranscribe (some txtFile) "uploads/audio-6.txt" (ProviderOutcome.throws none)).response =
      ⟨500, ResponseBody.failure "Internal server error" "Only audio files are allowed!"⟩ :=
  ⟨by decide,
   ((C5_accept_set_and_500_rejection txtFile "uploads/audio-6.txt"
       (ProviderOutcome.throws none)).2 (by decide)).1⟩

/-- Claim C6 counterexample: a successful response whose provider result
has a two-word transcript but no `words` list carries
`word_count = 0`, while the transcript text has 2 words. -/
theorem C6_counterexample_word_count_zero_for_two_word_transcript :
    (successBody? (postApiTranscribe (some wavFile) "uploads/audio-7.wav"
        (ProviderOutcome.ok twoWordResult)).response).map
      (fun b => (b.word_count, wordsInText b.transcript)) = some (0, 2) ∧
    (0 : Nat) ≠ 2 := by
  exact ⟨by decide, by decide⟩

/-- Claim C6 as amended: in every successful transcription response,
`word_count` equals the length of the provider's full `words` list (the
list before truncation to 10) — which coincides with the number of words
of the transcript only when the provider supplies an aligned `words`
list. -/
theorem C6_word_count_is_provider_words_length (u : Option UploadFile) (p : String)
    (r : DGResult) (b : SuccessBody)
    (hb : (postApiTranscribe u p (ProviderOutcome.ok r)).response.body = ResponseBody.success b) :
    b.word_count = (extractWords r).length := by
  unfold postApiTranscribe at hb
  split at hb
  · simp at hb
  · simp at hb
  · simp at hb
  · simp only [ResponseBody.success.injEq] at hb
    subst hb
    rfl

/-- Witness for C6 (amended) at the empty provider result. -/
theorem C6_witness :
    (postApiTranscribe (some wavFile) "uploads/audio-8.wav" (ProviderOutcome.ok emptyResult)).response.body =
      ResponseBody.success sampleSuccessBody ∧
    sampleSuccessBody.word_count = (extractWords emptyResult).length :=
  ⟨by decide,
   C6_word_count_is_provider_words_length (some wavFile) "uploads/audio-8.wav" emptyResult
     sampleSuccessBody (by decide)⟩

/-! ## Claims about the client -/

/-- A non-audio file as the browser presents it. -/
def txtFileInfo : Client.FileInfo := { name := "notes.txt", type := "text/plain" }

/-- A client state in the middle of a capture: recorder live, one
buffered chunk, recording flag set, record button disabled. -/
def recState : Client.ClientState :=
  { Client.initialState with
    mediaRecorder := some 1
    audioChunks := [1]
    isRecording := true
    visualizing := true
    recordBtnDisabled := true
    stopBtnDisabled := false }

/-- Claim C7 counterexample: the claim says files from the file picker
whose type does not indicate audio are rejected with a status message
and not submitted.  In fact `handleFileSelect` submits a `text/plain`
file without any type check and shows no status. -/
theorem C7_counterexample_picker_submits_text_file :
    strStartsWith txtFileInfo.type "audio/" = false ∧
    (Client.handleFileSelect (some txtFileInfo) Client.initialState).submissions = [txtFileInfo] ∧
    (Client.handleFileSelect (some txtFileInfo) Client.initialState).statusMessages = [] := by
  exact ⟨by decide, by decide, by decide⟩

/-- Claim C7 as amended: only the drag-and-drop path checks the declared
type — a dropped file whose type does not start with `audio/` is
rejected with a non-fatal status and not submitted — while the file
picker submits any selected file without a type check. -/
theorem C7_drop_checks_type_picker_does_not (s : Client.ClientState) (f : Client.FileInfo)
    (h : strStartsWith f.type "audio/" = false) :
    ((Client.handleFileDrop [f] s).submissions = s.submissions ∧
     (Client.handleFileDrop [f] s).statusMessages =
       s.statusMessages ++ [("Please upload an audio file", "error")]) ∧
    (Client.handleFileSelect (some f) s).submissions = s.submissions ++ [f] := by
  refine ⟨⟨?_, ?_⟩, rfl⟩ <;>
    simp [Client.handleFileDrop, Client.showStatus, h]

/-- Witness for C7 (amended) at the concrete text file. -/
theorem C7_witness :
    strStartsWith txtFileInfo.type "audio/" = false ∧
    (((Client.handleFileDrop [txtFileInfo] Client.initialState).submissions =
        Client.initialState.submissions ∧
      (Client.handleFileDrop [txtFileInfo] Client.initialState).statusMessages =
        Client.initialState.statusMessages ++ [("Please upload an audio file", "error")]) ∧
     (Client.handleFileSelect (some txtFileInfo) Client.initialState).submissions =
       Client.initialState.submissions ++ [txtFileInfo]) :=
  ⟨by decide,
   C7_drop_checks_type_picker_does_not Client.initialState txtFileInfo (by decide)⟩

/-- Claim C8 counterexample: the claim says a second capture-start while
already capturing is a no-op leaving recorder, buffered chunks, and
recording state unchanged.  Invoked on a capturing state with one
buffered chunk, `startRecording` empties the chunk buffer. -/
theorem C8_counterexample_restart_clears_chunks :
    recState.isRecording = true ∧
    (Client.startRecording true "" 2 recState).audioChunks ≠ recState.audioChunks := by
  exact ⟨rfl, by decide⟩

/-- Claim C8 as amended: `startRecording` has no re-entry guard — invoked
while already capturing (with the permission granted) it is not a no-op:
it replaces the recorder with the fresh one, resets the chunk buffer to
empty, and stays in the recording state.  (The UI only avoids this
incidentally, because `updateRecordingUI(true)` disabled the record
button.) -/
theorem C8_second_start_replaces_recorder (s : Client.ClientState) (e : String) (rec : Nat)
    (h : s.isRecording = true) :
    (Client.startRecording true e rec s).mediaRecorder = some rec ∧
    (Client.startRecording true e rec s).audioChunks = [] ∧
    (Client.startRecording true e rec s).isRecording = true ∧
    (Client.startRecording true e rec s).recordBtnDisabled = true := by
  exact ⟨rfl, rfl, rfl, rfl⟩

/-- Witness for C8 (amended) at the concrete capturing state. -/
theorem C8_witness :
    recState.isRecording = true ∧
    ((Client.startRecording true "" 2 recState).mediaRecorder = some 2 ∧
     (Client.startRecording true "" 2 recState).audioChunks = [] ∧
     (Client.startRecording true "" 2 recState).isRecording = true ∧
     (Client.startRecording true "" 2 recState).recordBtnDisabled = true) :=
  ⟨rfl, C8_second_start_replaces_recorder recState "" 2 rfl⟩

/-- Claim C9: when a submission's response indicates failure, the client
appends an error status carrying the message and leaves the displayed
result state — stored transcription, rendered transcript, metadata
fields and visibility, and the three action-button states — exactly as
before the submission. -/
theorem C9_failure_leaves_result_state_unchanged (s : Client.ClientState)
    (f : Client.FileInfo) (e m : String) :
    (Client.transcribeAudioDone (ResponseBody.failure e m)
        (Client.transcribeAudioStart f s)).currentTranscription = s.currentTranscription ∧
    (Client.transcribeAudioDone (ResponseBody.failure e m)
        (Client.transcribeAudioStart f s)).renderedTranscript = s.renderedTranscript ∧
    (Client.transcribeAudioDone (ResponseBody.failure e m)
        (Client.transcribeAudioStart f s)).confidenceText = s.confidenceText ∧
    (Client.transcribeAudioDone (ResponseBody.failure e m)
        (Client.transcribeAudioStart f s)).wordCountText = s.wordCountText ∧
    (Client.transcribeAudioDone (ResponseBody.failure e m)
        (Client.transcribeAudioStart f s)).durationText = s.durationText ∧
    (Client.transcribeAudioDone (ResponseBody.failure e m)
        (Client.transcribeAudioStart f s)).modelText = s.modelText ∧
    (Client.transcribeAudioDone (ResponseBody.failure e m)
        (Client.transcribeAudioStart f s)).metaVisible = s.metaVisible ∧
    (Client.transcribeAudioDone (ResponseBody.failure e m)
        (Client.transcribeAudioStart f s)).copyDisabled = s.copyDisabled ∧
    (Client.transcribeAudioDone (ResponseBody.failure e m)
        (Client.transcribeAudioStart f s)).downloadDisabled = s.downloadDisabled ∧
    (Client.transcribeAudioDone (ResponseBody.failure e m)
        (Client.transcribeAudioStart f s)).clearDisabled = s.clearDisabled ∧
    (Client.transcribeAudioDone (ResponseBody.failure e m)
        (Client.transcribeAudioStart f s)).statusMessages =
      s.statusMessages ++
        [("Transcription failed: " ++ (if m = "" then "Transcription failed" else m), "error")] := by
  simp [Client.transcribeAudioDone, Client.transcribeAudioStart, Client.showStatus]

/-- Claim C10: after a successful transcription with an empty transcript
the copy button is enabled, yet invoking copy changes nothing (no
clipboard write, no status — a silent no-op), while download still
serializes the stored result and clear still resets everything. -/
theorem C10_empty_transcript_copy_silent_noop (s : Client.ClientState) (b : SuccessBody)
    (ok : Bool) (now : Nat) (h : b.transcript = "") :
    (Client.transcribeAudioDone (ResponseBody.success b) s).copyDisabled = false ∧
    Client.copyTranscription ok (Client.transcribeAudioDone (ResponseBody.success b) s) =
      Client.transcribeAudioDone (ResponseBody.success b) s ∧
    (Client.downloadTranscription now (Client.transcribeAudioDone (ResponseBody.success b) s)).downloads =
      (Client.transcribeAudioDone (ResponseBody.success b) s).downloads ++
        [Client.downloadContent b now] ∧
    (Client.clearTranscription (Client.transcribeAudioDone (ResponseBody.success b) s)).currentTranscription = none ∧
    (Client.clearTranscription (Client.transcribeAudioDone (ResponseBody.success b) s)).copyDisabled = true ∧
    (Client.clearTranscription (Client.transcribeAudioDone (ResponseBody.success b) s)).downloadDisabled = true ∧
    (Client.clearTranscription (Client.transcribeAudioDone (ResponseBody.success b) s)).metaVisible = false := by
  simp [Client.transcribeAudioDone, Client.displayTranscription, Client.showStatus,
    Client.copyTranscription, Client.downloadTranscription, Client.clearTranscription, h]

/-- Witness for C10 at the concrete empty-transcript result. -/
theorem C10_witness :
    sampleSuccessBody.transcript = "" ∧
    ((Client.transcribeAudioDone (ResponseBody.success sampleSuccessBody) Client.initialState).copyDisabled = false ∧
     Client.copyTranscription true
         (Client.transcribeAudioDone (ResponseBody.success sampleSuccessBody) Client.initialState) =
       Client.transcribeAudioDone (ResponseBody.success sampleSuccessBody) Client.initialState ∧
     (Client.downloadTranscription 0
         (Client.transcribeAudioDone (ResponseBody.success sampleSuccessBody) Client.initialState)).downloads =
       (Client.transcribeAudioDone (ResponseBody.success sampleSuccessBody) Client.initialState).downloads ++
         [Client.downloadContent sampleSuccessBody 0] ∧
     (Client.clearTranscription
         (Client.transcribeAudioDone (ResponseBody.success sampleSuccessBody) Client.initialState)).currentTranscription = none ∧
     (Client.clearTranscription
         (Client.transcribeAudioDone (ResponseBody.success sampleSuccessBody) Client.initialState)).copyDisabled = true ∧
     (Client.clearTranscription
         (Client.transcribeAudioDone (ResponseBody.success sampleSuccessBody) Client.initialState)).downloadDisabled = true ∧
     (Client.clearTranscription
         (Client.transcribeAudioDone (ResponseBody.success sampleSuccessBody) Client.initialState)).metaVisible = false) :=
  ⟨rfl, C10_empty_transcript_copy_silent_noop Client.initialState sampleSuccessBody true 0 rfl⟩
